import Mathlib

/-!
Shallow embedding of the Interprex backend (src/server.js) in Lean 4.

The source file contains two concatenated versions of the same Express
server.  Version 1 (lines 1-107) registers `/create-order` and
`/verify-payment` handlers that stop after signature verification.
Version 2 (lines 109-318) additionally fetches the order from the payment
gateway, resolves the course slug, and inserts an access-grant row.

JavaScript request fields are modelled by `JSValue` (undefined, null,
booleans, integer numbers, strings) with JavaScript truthiness.  External
collaborators (the node crypto HMAC primitive, the payment gateway, the
course/grant store) are modelled as oracle functions carried in an
environment record; each handler returns its HTTP response together with
the list of upstream effects it performed, in order.
-/

namespace Interprex

/-- Model of a JavaScript value as it can appear in a JSON request body or
an upstream record: undefined, null, boolean, (integer) number, or string. -/
inductive JSValue where
  | undef : JSValue
  | null : JSValue
  | bool (b : Bool) : JSValue
  | num (n : Int) : JSValue
  | str (s : String) : JSValue
deriving DecidableEq, Repr

/-- JavaScript truthiness: undefined, null, false, 0 and the empty string
are falsy; every other modelled value is truthy. -/
def truthy : JSValue → Bool
  | .undef => false
  | .null => false
  | .bool b => b
  | .num n => n != 0
  | .str s => s != ""

/-- JavaScript string coercion, as performed by the + operator when one
operand is a string. -/
def jsToString : JSValue → String
  | .undef => "undefined"
  | .null => "null"
  | .bool b => if b then "true" else "false"
  | .num n => toString n
  | .str s => s

/-- JavaScript strict equality (===) on modelled values: no coercion,
equal only when of the same type with the same content. -/
def strictEq : JSValue → JSValue → Bool
  | .undef, .undef => true
  | .null, .null => true
  | .bool a, .bool b => a == b
  | .num a, .num b => a == b
  | .str a, .str b => a == b
  | _, _ => false

/-- Strict equality of a known string (such as the recomputed signature)
against an untrusted value. -/
def strictEqStr (s : String) (v : JSValue) : Bool :=
  strictEq (.str s) v

/-- A JavaScript object, as a list of key/value entries. -/
abbrev Obj := List (String × JSValue)

/-- Property access on an object: the value at the key, undefined if the
key is absent. -/
def getKey : Obj → String → JSValue
  | [], _ => .undef
  | (k, v) :: rest, key => if k = key then v else getKey rest key

/-- Writing a key in an object literal after a spread: any earlier entry
for the key is overridden and the new binding is appended. -/
def setKey (o : Obj) (key : String) (v : JSValue) : Obj :=
  o.filter (fun p => p.1 != key) ++ [(key, v)]

/-- The options object sent to razorpay.orders.create. -/
structure CreateOptions where
  amount : JSValue
  currency : JSValue
  receipt : JSValue
  notes : Obj
deriving DecidableEq, Repr

/-- Modelled from the spec: the gateway order as this service sees it after
creation.  The spec states the Order Service embeds course_slug and user_id
into the order metadata so they can be recovered during verification, i.e.
the gateway stores the supplied notes verbatim on the order; the id is
gateway-assigned. -/
structure Order where
  id : String
  notes : Obj
deriving DecidableEq, Repr

/-- The order as returned by razorpay.orders.fetch: only its notes are
read by the verification handler, and the handler guards the access with
optional chaining, so the notes object may be absent. -/
structure FetchedOrder where
  notes : Option Obj
deriving DecidableEq, Repr

/-- A row of the courses table as selected by the course lookup
(select id, slug). -/
structure Course where
  id : JSValue
  slug : JSValue
deriving DecidableEq, Repr

/-- One upstream call performed by a handler. -/
inductive Effect where
  | gatewayCreate (options : CreateOptions) : Effect
  | fetchOrder (order_id : JSValue) : Effect
  | courseLookup (slug : JSValue) : Effect
  | insertGrant (user_id course_id : JSValue) : Effect
deriving DecidableEq, Repr

/-- Response body of the verify-payment endpoint.  Every body the handler
builds has a success flag; error bodies carry a message, and the
course-not-found body additionally carries a slug_received field. -/
structure VerifyBody where
  success : Bool
  message : Option String
  slug_received : Option JSValue
deriving DecidableEq, Repr

/-- HTTP response of the verify-payment endpoint. -/
structure VerifyResp where
  status : Nat
  body : VerifyBody
deriving DecidableEq, Repr

/-- Environment of the verify-payment handler: the shared secret, the
HMAC-SHA256 hex-digest primitive of the node crypto library (an external
primitive, modelled as an oracle from key and message to hex digest), and
the upstream services.  fetchOrder models razorpay.orders.fetch (throwing
is the error case), courseLookup models the supabase courses query with
none covering both a query error and an empty result, and insertGrant
models the user_courses insert, returning the error code when the insert
fails. -/
structure VerifyEnv where
  key_secret : String
  hmac : String → String → String
  fetchOrder : JSValue → Except Unit FetchedOrder
  courseLookup : JSValue → Option Course
  insertGrant : JSValue → JSValue → Option JSValue

/-- The metadata value the handler reads from a fetched order with
optional chaining (order.notes?.key). -/
def noteVal (order : FetchedOrder) (key : String) : JSValue :=
  match order.notes with
  | none => .undef
  | some o => getKey o key

/-- The string the handler signs: order id, a pipe, payment id, each
coerced to a string by the JavaScript + operator. -/
def sigPayload (order_id payment_id : JSValue) : String :=
  jsToString order_id ++ "|" ++ jsToString payment_id

/-- Step 4 of the version-2 verification handler (the access-grant step),
as a function of the insert outcome: an error whose code is not the string
23505 yields a 500 failure, anything else (no error, or the
unique-violation code 23505) yields the 200 success response. -/
def grantStepWith (ucError : Option JSValue) : VerifyResp :=
  match ucError with
  | some code =>
    if !(strictEq code (.str "23505")) then
      ⟨500, ⟨false, some "Could not grant access", none⟩⟩
    else
      ⟨200, ⟨true, none, none⟩⟩
  | none => ⟨200, ⟨true, none, none⟩⟩

/-- The version-2 POST /verify-payment handler (src/server.js lines
212-313): field check, signature recomputation and comparison, order
fetch, metadata check, course lookup, grant insert.  Returns the response
together with the ordered list of upstream effects. -/
def verifyPaymentV2 (env : VerifyEnv) (req_order_id req_payment_id req_signature : JSValue) :
    VerifyResp × List Effect :=
  if !(truthy req_order_id) || !(truthy req_payment_id) || !(truthy req_signature) then
    (⟨400, ⟨false, some "Missing payment details", none⟩⟩, [])
  else
    let expectedSignature := env.hmac env.key_secret (sigPayload req_order_id req_payment_id)
    if !(strictEqStr expectedSignature req_signature) then
      (⟨400, ⟨false, some "Invalid signature", none⟩⟩, [])
    else
      match env.fetchOrder req_order_id with
      | .error _ =>
          (⟨500, ⟨false, some "Server error verifying payment", none⟩⟩,
           [.fetchOrder req_order_id])
      | .ok order =>
          let course_slug := noteVal order "course_slug"
          let user_id := noteVal order "user_id"
          if !(truthy course_slug) || !(truthy user_id) then
            (⟨500, ⟨false, some "Missing metadata", none⟩⟩,
             [.fetchOrder req_order_id])
          else
            match env.courseLookup course_slug with
            | none =>
                (⟨500, ⟨false, some "Course not found", some course_slug⟩⟩,
                 [.fetchOrder req_order_id, .courseLookup course_slug])
            | some course =>
                (grantStepWith (env.insertGrant user_id course.id),
                 [.fetchOrder req_order_id, .courseLookup course_slug,
                  .insertGrant user_id course.id])

/-- The version-1 POST /verify-payment handler (src/server.js lines
56-102): field check and signature comparison only; on a valid signature
it responds success with no upstream call. -/
def verifyPaymentV1 (env : VerifyEnv) (req_order_id req_payment_id req_signature : JSValue) :
    VerifyResp × List Effect :=
  if !(truthy req_order_id) || !(truthy req_payment_id) || !(truthy req_signature) then
    (⟨400, ⟨false, some "Missing payment details", none⟩⟩, [])
  else
    let expectedSignature := env.hmac env.key_secret (sigPayload req_order_id req_payment_id)
    if !(strictEqStr expectedSignature req_signature) then
      (⟨400, ⟨false, some "Invalid signature", none⟩⟩, [])
    else
      (⟨200, ⟨true, none, none⟩⟩, [])

/-- Request body of the create-order endpoint.  The notes field is the
caller-supplied notes object (empty when absent: spreading undefined
contributes no entries, and the version-1 fallback notes-or-empty also
yields the empty object). -/
structure CreateReq where
  amount : JSValue
  currency : JSValue
  receipt : JSValue
  notes : Obj
  course_slug : JSValue
  user_id : JSValue
deriving Repr

/-- Response body of the create-order endpoint: the gateway order passed
through on success, or an error object. -/
inductive CreateBody where
  | order (o : Order) : CreateBody
  | err (e : String) : CreateBody
deriving DecidableEq, Repr

/-- HTTP response of the create-order endpoint. -/
structure CreateResp where
  status : Nat
  body : CreateBody
deriving DecidableEq, Repr

/-- Environment of the create-order handler: the clock used for the
receipt fallback, and the gateway create call, which returns the new
order id (throwing is the error case).  Modelled from the spec: on
success the gateway stores the supplied notes verbatim on the created
order, which the handler passes through to the client. -/
structure CreateEnv where
  now : Int
  create : CreateOptions → Except Unit String

/-- The destructuring default for the currency field: INR when the field
is undefined. -/
def currencyOrDefault (c : JSValue) : JSValue :=
  match c with
  | .undef => .str "INR"
  | c => c

/-- The receipt fallback: the supplied receipt when truthy, otherwise a
time-based string. -/
def receiptOrDefault (r : JSValue) (now : Int) : JSValue :=
  if truthy r then r else .str ("order_rcpt_" ++ toString now)

/-- The options object the version-2 handler builds for the gateway: the
caller notes are spread first, then the course_slug and user_id keys are
written, so they override any entries of the same name in the caller
notes. -/
def createOptionsV2 (env : CreateEnv) (req : CreateReq) : CreateOptions :=
  { amount := req.amount
    currency := currencyOrDefault req.currency
    receipt := receiptOrDefault req.receipt env.now
    notes := setKey (setKey req.notes "course_slug" req.course_slug) "user_id" req.user_id }

/-- The version-2 POST /create-order handler (src/server.js lines
154-203): requires amount, course_slug and user_id to be truthy, then
creates a gateway order whose notes are the caller notes spread first,
with course_slug and user_id written after the spread. -/
def createOrderV2 (env : CreateEnv) (req : CreateReq) : CreateResp × List Effect :=
  if !(truthy req.amount) || !(truthy req.course_slug) || !(truthy req.user_id) then
    (⟨400, .err "Amount, course_slug and user_id are required"⟩, [])
  else
    let options := createOptionsV2 env req
    match env.create options with
    | .error _ => (⟨500, .err "Unable to create order"⟩, [.gatewayCreate options])
    | .ok oid => (⟨200, .order ⟨oid, options.notes⟩⟩, [.gatewayCreate options])

/-- The version-1 POST /create-order handler (src/server.js lines 31-53):
requires only amount to be truthy and passes the caller notes through
unchanged. -/
def createOrderV1 (env : CreateEnv) (req : CreateReq) : CreateResp × List Effect :=
  if !(truthy req.amount) then
    (⟨400, .err "Amount is required"⟩, [])
  else
    let options : CreateOptions :=
      { amount := req.amount
        currency := currencyOrDefault req.currency
        receipt := receiptOrDefault req.receipt env.now
        notes := req.notes }
    match env.create options with
    | .error _ => (⟨500, .err "Unable to create order"⟩, [.gatewayCreate options])
    | .ok oid => (⟨200, .order ⟨oid, options.notes⟩⟩, [.gatewayCreate options])

/-- The grant store: the rows of the user_courses table, as
(user_id, course_id) pairs. -/
abbrev Store := List (JSValue × JSValue)

/-- Modelled from the spec: the persistent store enforces a unique
(user_id, course_id) constraint on user_courses, so inserting a pair that
is already present fails with the unique-violation code 23505 and leaves
the store unchanged, and any other insert appends the row and reports no
error. -/
def storeInsert (store : Store) (user_id course_id : JSValue) : Option JSValue × Store :=
  if (user_id, course_id) ∈ store then
    (some (.str "23505"), store)
  else
    (none, store ++ [(user_id, course_id)])

/-- The access-grant step run against the modelled store: perform the
insert, then build the response exactly as src/server.js lines 291-306
does from the insert error. -/
def grantStep (store : Store) (user_id course_id : JSValue) : VerifyResp × Store :=
  let r := storeInsert store user_id course_id
  (grantStepWith r.1, r.2)

/-- Concrete order metadata used in witnesses: a well-formed notes object. -/
def okNotes : Obj := [("course_slug", JSValue.str "intro-ts"), ("user_id", JSValue.str "u123")]

/-- Concrete stand-in for the HMAC oracle in witnesses (any function of
key and message works, the handlers only compare its output). -/
def hmacModel : String → String → String := fun key msg => key ++ ":" ++ msg

/-- Concrete happy-path verification environment for witnesses: the fetch
returns full metadata, the course resolves, the insert succeeds. -/
def envOK : VerifyEnv :=
  { key_secret := "secret"
    hmac := hmacModel
    fetchOrder := fun _ => .ok ⟨some okNotes⟩
    courseLookup := fun _ => some ⟨JSValue.num 7, JSValue.str "intro-ts"⟩
    insertGrant := fun _ _ => none }

/-- Environment in which the course lookup finds no matching course. -/
def envNoCourse : VerifyEnv :=
  { envOK with courseLookup := fun _ => none }

/-- Environment in which the fetched order metadata lacks user_id. -/
def envNoMeta : VerifyEnv :=
  { envOK with fetchOrder := fun _ => .ok ⟨some [("course_slug", JSValue.str "intro-ts")]⟩ }

/-- Concrete order id used in witnesses. -/
def oidA : JSValue := .str "order_1"

/-- Concrete payment id used in witnesses. -/
def pidA : JSValue := .str "pay_1"

/-- The signature that matches (oidA, pidA) under envOK. -/
def sigA : JSValue := .str "secret:order_1|pay_1"

/-- Concrete create-order environment for witnesses. -/
def cenvOK : CreateEnv := { now := 0, create := fun _ => .ok "order_1" }

/-- Concrete create-order request whose caller notes try to override the
course_slug and user_id keys. -/
def reqB : CreateReq :=
  { amount := .num 50000
    currency := .undef
    receipt := .undef
    notes := [("course_slug", JSValue.str "evil"), ("user_id", JSValue.str "evil")]
    course_slug := .str "intro-ts"
    user_id := .str "u123" }

/-- The order the gateway model returns for reqB under cenvOK. -/
def orderB : Order :=
  ⟨"order_1", [("course_slug", JSValue.str "intro-ts"), ("user_id", JSValue.str "u123")]⟩

/-- reqB with a zero amount and no caller notes. -/
def reqZero : CreateReq := { reqB with amount := .num 0, notes := [] }

/-- reqB with the course_slug field absent. -/
def reqNoSlug : CreateReq := { reqB with course_slug := .undef }

/-- Strict equality agrees with propositional equality of modelled values. -/
theorem strictEq_iff (a b : JSValue) : strictEq a b = true ↔ a = b := by
  cases a <;> cases b <;> simp [strictEq]

/-- Strict equality of a string against a value holds exactly when the
value is that string. -/
theorem strictEqStr_iff (s : String) (v : JSValue) :
    strictEqStr s v = true ↔ v = .str s := by
  cases v <;> simp [strictEqStr, strictEq]
  exact eq_comm

/-- Reading back the key just written in an object literal yields the
written value. -/
theorem getKey_setKey_same (o : Obj) (k : String) (v : JSValue) :
    getKey (setKey o k v) k = v := by
  induction o with
  | nil => simp [setKey, getKey]
  | cons p rest ih =>
    by_cases h : p.1 = k
    · simpa [setKey, List.filter_cons, h] using ih
    · simp only [setKey, List.filter_cons] at ih ⊢
      simp [h, getKey, ih]

/-- Writing one key leaves the value at every other key unchanged. -/
theorem getKey_setKey_other (o : Obj) (k' : String) (v : JSValue) (k : String)
    (h : k' ≠ k) : getKey (setKey o k' v) k = getKey o k := by
  induction o with
  | nil => simp [setKey, getKey, h]
  | cons p rest ih =>
    simp only [setKey, List.filter_cons] at ih ⊢
    by_cases hp : p.1 = k'
    · simp [hp, getKey, ih, h]
    · by_cases hk : p.1 = k
      · simp [hp, hk, getKey, Ne.symm h]
      · simp [hp, hk, getKey, ih]

/-- A false boolean negation means the underlying boolean is true. -/
theorem bnot_false {a : Bool} (h : (!a) = false) : a = true := by
  cases a <;> simp_all

/-- The undefined value is falsy. -/
theorem truthy_undef : truthy .undef = false := rfl

/-- The empty string is falsy. -/
theorem truthy_emptyStr : truthy (.str "") = false := rfl

/-- The number zero is falsy. -/
theorem truthy_zero : truthy (.num 0) = false := rfl

/-- The grant step yields either the success response or the
could-not-grant 500 response. -/
theorem grantStepWith_cases (e : Option JSValue) :
    grantStepWith e = ⟨200, ⟨true, none, none⟩⟩ ∨
    grantStepWith e = ⟨500, ⟨false, some "Could not grant access", none⟩⟩ := by
  match e with
  | none => exact Or.inl rfl
  | some code =>
    by_cases h : strictEq code (.str "23505") = true
    · exact Or.inl (by simp [grantStepWith, h])
    · exact Or.inr (by simp [grantStepWith, Bool.eq_false_iff.mpr h])

/-- When any request field is falsy, the version-2 verification handler
returns 400 with no effects. -/
theorem verify2_missing (env : VerifyEnv) (oid pid sig : JSValue)
    (h : (!(truthy oid) || !(truthy pid) || !(truthy sig)) = true) :
    verifyPaymentV2 env oid pid sig =
      (⟨400, ⟨false, some "Missing payment details", none⟩⟩, []) := by
  simp [verifyPaymentV2, h]

/-- When the fields are truthy and the recomputed signature does not
strictly equal the supplied one, the version-2 verification handler
returns 400 with no effects. -/
theorem verify2_invalid (env : VerifyEnv) (oid pid sig : JSValue)
    (h1 : truthy oid = true) (h2 : truthy pid = true) (h3 : truthy sig = true)
    (hs : strictEqStr (env.hmac env.key_secret (sigPayload oid pid)) sig = false) :
    verifyPaymentV2 env oid pid sig =
      (⟨400, ⟨false, some "Invalid signature", none⟩⟩, []) := by
  simp [verifyPaymentV2, h1, h2, h3, hs]

/-- The version-2 verification handler produces one of seven responses:
the two 400 rejections, the four 500 failures (with the course-not-found
body carrying some echoed slug), or the 200 success. -/
theorem verify2_resp_cases (env : VerifyEnv) (oid pid sig : JSValue) :
    (verifyPaymentV2 env oid pid sig).1 = ⟨400, ⟨false, some "Missing payment details", none⟩⟩ ∨
    (verifyPaymentV2 env oid pid sig).1 = ⟨400, ⟨false, some "Invalid signature", none⟩⟩ ∨
    (verifyPaymentV2 env oid pid sig).1 = ⟨500, ⟨false, some "Server error verifying payment", none⟩⟩ ∨
    (verifyPaymentV2 env oid pid sig).1 = ⟨500, ⟨false, some "Missing metadata", none⟩⟩ ∨
    (∃ slug, (verifyPaymentV2 env oid pid sig).1 = ⟨500, ⟨false, some "Course not found", some slug⟩⟩) ∨
    (verifyPaymentV2 env oid pid sig).1 = ⟨500, ⟨false, some "Could not grant access", none⟩⟩ ∨
    (verifyPaymentV2 env oid pid sig).1 = ⟨200, ⟨true, none, none⟩⟩ := by
  by_cases h0 : (!(truthy oid) || !(truthy pid) || !(truthy sig)) = true
  · exact Or.inl (by simp [verifyPaymentV2, h0])
  · rw [Bool.not_eq_true] at h0
    by_cases hs : strictEqStr (env.hmac env.key_secret (sigPayload oid pid)) sig = true
    · cases hf : env.fetchOrder oid with
      | error e => exact Or.inr (Or.inr (Or.inl (by simp [verifyPaymentV2, h0, hs, hf])))
      | ok order =>
        by_cases hm : (!(truthy (noteVal order "course_slug")) ||
            !(truthy (noteVal order "user_id"))) = true
        · exact Or.inr (Or.inr (Or.inr (Or.inl (by simp [verifyPaymentV2, h0, hs, hf, hm]))))
        · rw [Bool.not_eq_true] at hm
          cases hc : env.courseLookup (noteVal order "course_slug") with
          | none =>
            exact Or.inr (Or.inr (Or.inr (Or.inr (Or.inl
              ⟨noteVal order "course_slug", by simp [verifyPaymentV2, h0, hs, hf, hm, hc]⟩))))
          | some course =>
            rcases grantStepWith_cases (env.insertGrant (noteVal order "user_id") course.id)
              with hg | hg
            · exact Or.inr (Or.inr (Or.inr (Or.inr (Or.inr (Or.inr
                (by simp [verifyPaymentV2, h0, hs, hf, hm, hc, hg]))))))
            · exact Or.inr (Or.inr (Or.inr (Or.inr (Or.inr (Or.inl
                (by simp [verifyPaymentV2, h0, hs, hf, hm, hc, hg]))))))
    · rw [Bool.not_eq_true] at hs
      exact Or.inr (Or.inl (by simp [verifyPaymentV2, h0, hs]))

/-- The version-1 verification handler produces one of three responses. -/
theorem verify1_resp_cases (env : VerifyEnv) (oid pid sig : JSValue) :
    (verifyPaymentV1 env oid pid sig).1 = ⟨400, ⟨false, some "Missing payment details", none⟩⟩ ∨
    (verifyPaymentV1 env oid pid sig).1 = ⟨400, ⟨false, some "Invalid signature", none⟩⟩ ∨
    (verifyPaymentV1 env oid pid sig).1 = ⟨200, ⟨true, none, none⟩⟩ := by
  by_cases h0 : (!(truthy oid) || !(truthy pid) || !(truthy sig)) = true
  · exact Or.inl (by simp [verifyPaymentV1, h0])
  · rw [Bool.not_eq_true] at h0
    by_cases hs : strictEqStr (env.hmac env.key_secret (sigPayload oid pid)) sig = true
    · exact Or.inr (Or.inr (by simp [verifyPaymentV1, h0, hs]))
    · rw [Bool.not_eq_true] at hs
      exact Or.inr (Or.inl (by simp [verifyPaymentV1, h0, hs]))

/-- When the signature check passes, no branch of the version-2 handler
reports an invalid signature. -/
theorem verify2_matched_message (env : VerifyEnv) (oid pid sig : JSValue)
    (h0 : (!(truthy oid) || !(truthy pid) || !(truthy sig)) = false)
    (hs : strictEqStr (env.hmac env.key_secret (sigPayload oid pid)) sig = true) :
    (verifyPaymentV2 env oid pid sig).1.body.message ≠ some "Invalid signature" := by
  cases hf : env.fetchOrder oid with
  | error e => simp [verifyPaymentV2, h0, hs, hf]
  | ok order =>
    by_cases hm : (!(truthy (noteVal order "course_slug")) ||
        !(truthy (noteVal order "user_id"))) = true
    · simp [verifyPaymentV2, h0, hs, hf, hm]
    · rw [Bool.not_eq_true] at hm
      cases hc : env.courseLookup (noteVal order "course_slug") with
      | none => simp [verifyPaymentV2, h0, hs, hf, hm, hc]
      | some course =>
        rcases grantStepWith_cases (env.insertGrant (noteVal order "user_id") course.id)
          with hg | hg <;> simp [verifyPaymentV2, h0, hs, hf, hm, hc, hg]

/-- C1: in the version-2 verification handler a grant insert is attempted
only when the recomputed HMAC over (order_id, payment_id) strictly equals
the supplied signature, and on a signature mismatch the handler returns
the 400 failure immediately with an empty effect list, so no order fetch,
course lookup or insert happens. -/
theorem signature_gates_grant (env : VerifyEnv) (oid pid sig : JSValue) :
    (∀ u c, Effect.insertGrant u c ∈ (verifyPaymentV2 env oid pid sig).2 →
      strictEqStr (env.hmac env.key_secret (sigPayload oid pid)) sig = true)
    ∧ (truthy oid = true → truthy pid = true → truthy sig = true →
      strictEqStr (env.hmac env.key_secret (sigPayload oid pid)) sig = false →
      verifyPaymentV2 env oid pid sig =
        (⟨400, ⟨false, some "Invalid signature", none⟩⟩, [])) := by
  constructor
  · intro u c hmem
    by_cases h0 : (!(truthy oid) || !(truthy pid) || !(truthy sig)) = true
    · rw [verify2_missing env oid pid sig h0] at hmem
      simp at hmem
    · rw [Bool.not_eq_true] at h0
      rcases Bool.or_eq_false_iff.mp h0 with ⟨hab, hc⟩
      rcases Bool.or_eq_false_iff.mp hab with ⟨ha, hb⟩
      have h1 := bnot_false ha
      have h2 := bnot_false hb
      have h3 := bnot_false hc
      by_cases hs : strictEqStr (env.hmac env.key_secret (sigPayload oid pid)) sig = true
      · exact hs
      · rw [Bool.not_eq_true] at hs
        rw [verify2_invalid env oid pid sig h1 h2 h3 hs] at hmem
        simp at hmem
  · exact verify2_invalid env oid pid sig

/-- C1 witness: a concrete request with truthy fields and a wrong
signature is rejected with 400 and no effects. -/
theorem signature_gates_grant_witness :
    verifyPaymentV2 envOK oidA pidA (JSValue.str "bad") =
      (⟨400, ⟨false, some "Invalid signature", none⟩⟩, []) :=
  (signature_gates_grant envOK oidA pidA (JSValue.str "bad")).2
    (by decide) (by decide) (by decide) (by decide)

/-- C2: for non-empty fields, the version-2 handler passes signature
verification (it never reports an invalid signature) exactly when the
supplied value is the string the HMAC oracle computes over order id, pipe,
payment id with the shared secret; any string differing from that value,
even in one character, is rejected with 400 and no effects. -/
theorem verify_accepts_iff_hmac_matches (env : VerifyEnv) (oid pid sig : JSValue)
    (h1 : truthy oid = true) (h2 : truthy pid = true) (h3 : truthy sig = true) :
    ((verifyPaymentV2 env oid pid sig).1.body.message ≠ some "Invalid signature" ↔
      sig = .str (env.hmac env.key_secret (sigPayload oid pid)))
    ∧ (∀ s : String, sig = .str s → s ≠ env.hmac env.key_secret (sigPayload oid pid) →
      verifyPaymentV2 env oid pid sig =
        (⟨400, ⟨false, some "Invalid signature", none⟩⟩, [])) := by
  have h0 : (!(truthy oid) || !(truthy pid) || !(truthy sig)) = false := by
    simp [h1, h2, h3]
  by_cases hs : strictEqStr (env.hmac env.key_secret (sigPayload oid pid)) sig = true
  · have hsig := (strictEqStr_iff _ _).mp hs
    refine ⟨⟨fun _ => hsig, fun _ => verify2_matched_message env oid pid sig h0 hs⟩, ?_⟩
    intro s hstr hne
    exact absurd (JSValue.str.inj (hstr ▸ hsig)) hne
  · rw [Bool.not_eq_true] at hs
    have heq := verify2_invalid env oid pid sig h1 h2 h3 hs
    refine ⟨?_, fun s hstr hne => heq⟩
    rw [heq]
    constructor
    · intro hmsg
      exact absurd rfl hmsg
    · intro hsig
      rw [hsig] at hs
      simp [strictEqStr, strictEq] at hs

/-- C2 witness: a concrete one-character signature that differs from the
recomputed value is rejected. -/
theorem verify_accepts_iff_hmac_matches_witness :
    verifyPaymentV2 envOK oidA pidA (JSValue.str "x") =
      (⟨400, ⟨false, some "Invalid signature", none⟩⟩, []) :=
  (verify_accepts_iff_hmac_matches envOK oidA pidA (JSValue.str "x")
    (by decide) (by decide) (by decide)).2 "x" rfl (by decide)

/-- C3: a version-2 verification request with any of the three fields
absent gets status 400 with the missing-details failure body, and the
handler performs no upstream call. -/
theorem verify_missing_fields_rejected (env : VerifyEnv) (oid pid sig : JSValue)
    (h : oid = .undef ∨ pid = .undef ∨ sig = .undef) :
    verifyPaymentV2 env oid pid sig =
      (⟨400, ⟨false, some "Missing payment details", none⟩⟩, []) := by
  rcases h with h | h | h <;> simp [verifyPaymentV2, h, truthy]

/-- C3 witness: a concrete request with no order id is rejected with 400
and no effects. -/
theorem verify_missing_fields_rejected_witness :
    verifyPaymentV2 envOK .undef pidA sigA =
      (⟨400, ⟨false, some "Missing payment details", none⟩⟩, []) :=
  verify_missing_fields_rejected envOK .undef pidA sigA (Or.inl rfl)

/-- C4: the access-grant step treats an insert error with code 23505 (and
only an error with that code, or no error) as success, and every other
insert error yields the 500 could-not-grant failure; consequently, over
the modelled unique-constraint store, granting twice with the same pair
succeeds both times and leaves exactly one matching record. -/
theorem grant_unique_violation_idempotent :
    (∀ e : Option JSValue,
      grantStepWith e = ⟨200, ⟨true, none, none⟩⟩ ↔ e = none ∨ e = some (.str "23505"))
    ∧ (∀ c : JSValue, c ≠ .str "23505" →
      grantStepWith (some c) = ⟨500, ⟨false, some "Could not grant access", none⟩⟩)
    ∧ (∀ (store : Store) (u c : JSValue), (u, c) ∉ store →
      (grantStep store u c).1 = ⟨200, ⟨true, none, none⟩⟩ ∧
      (grantStep (grantStep store u c).2 u c).1 = ⟨200, ⟨true, none, none⟩⟩ ∧
      (grantStep (grantStep store u c).2 u c).2 = store ++ [(u, c)] ∧
      List.count (u, c) (grantStep (grantStep store u c).2 u c).2 = 1) := by
  refine ⟨?_, ?_, ?_⟩
  · intro e
    match e with
    | none => simp [grantStepWith]
    | some code =>
      by_cases h : strictEq code (.str "23505") = true
      · have hc := (strictEq_iff _ _).mp h
        subst hc
        simp [grantStepWith, strictEq]
      · have hne : code ≠ .str "23505" := fun hh => h ((strictEq_iff _ _).mpr hh)
        rw [Bool.not_eq_true] at h
        simp [grantStepWith, h, hne]
  · intro c hne
    have hb : strictEq c (.str "23505") = false :=
      Bool.eq_false_iff.mpr (fun hh => hne ((strictEq_iff _ _).mp hh))
    simp [grantStepWith, hb]
  · intro store u c hmem
    have hins : storeInsert store u c = (none, store ++ [(u, c)]) := by
      simp [storeInsert, hmem]
    have hg1 : grantStep store u c = (⟨200, ⟨true, none, none⟩⟩, store ++ [(u, c)]) := by
      simp [grantStep, hins, grantStepWith]
    have hmem2 : (u, c) ∈ store ++ [(u, c)] := by simp
    have hins2 : storeInsert (store ++ [(u, c)]) u c =
        (some (.str "23505"), store ++ [(u, c)]) := by
      simp [storeInsert, hmem2]
    have hg2 : grantStep (store ++ [(u, c)]) u c =
        (⟨200, ⟨true, none, none⟩⟩, store ++ [(u, c)]) := by
      simp [grantStep, hins2, grantStepWith, strictEq]
    refine ⟨by rw [hg1], by rw [hg1, hg2], by rw [hg1, hg2], ?_⟩
    rw [hg1, hg2]
    simp [List.count_append, List.count_eq_zero.mpr hmem]

/-- C4 witness: granting the same concrete pair twice on the empty store
succeeds both times and leaves exactly one record. -/
theorem grant_unique_violation_idempotent_witness :
    (grantStep [] (JSValue.str "u123") (JSValue.num 7)).1 = ⟨200, ⟨true, none, none⟩⟩ ∧
    (grantStep (grantStep [] (JSValue.str "u123") (JSValue.num 7)).2
      (JSValue.str "u123") (JSValue.num 7)).1 = ⟨200, ⟨true, none, none⟩⟩ ∧
    (grantStep (grantStep [] (JSValue.str "u123") (JSValue.num 7)).2
      (JSValue.str "u123") (JSValue.num 7)).2 = [] ++ [(JSValue.str "u123", JSValue.num 7)] ∧
    List.count (JSValue.str "u123", JSValue.num 7)
      (grantStep (grantStep [] (JSValue.str "u123") (JSValue.num 7)).2
        (JSValue.str "u123") (JSValue.num 7)).2 = 1 :=
  grant_unique_violation_idempotent.2.2 [] (JSValue.str "u123") (JSValue.num 7) (by decide)

/-- C5: a version-2 create-order request in which amount, course_slug or
user_id is missing or the empty string gets status 400 with the
required-fields error body, and no gateway call is made. -/
theorem create_missing_fields_rejected (env : CreateEnv) (req : CreateReq)
    (h : req.amount = .undef ∨ req.amount = .str "" ∨ req.course_slug = .undef ∨
      req.course_slug = .str "" ∨ req.user_id = .undef ∨ req.user_id = .str "") :
    createOrderV2 env req =
      (⟨400, .err "Amount, course_slug and user_id are required"⟩, []) := by
  rcases h with h | h | h | h | h | h <;> simp [createOrderV2, h, truthy]

/-- C5 witness: a concrete request without a course slug is rejected with
400 and no gateway call. -/
theorem create_missing_fields_rejected_witness :
    createOrderV2 cenvOK reqNoSlug =
      (⟨400, .err "Amount, course_slug and user_id are required"⟩, []) :=
  create_missing_fields_rejected cenvOK reqNoSlug (Or.inr (Or.inr (Or.inl rfl)))

/-- C6 counterexample: on a concrete verified request whose course lookup
finds no course, the 500 error body carries a slug_received field echoing
the slug recovered from the upstream order, so the body is not of the
shape claimed (success and message only, no echoed upstream data). -/
theorem verify_error_body_slug_echo_cex :
    (verifyPaymentV2 envNoCourse oidA pidA sigA).1.status = 500 ∧
    (verifyPaymentV2 envNoCourse oidA pidA sigA).1.body.success = false ∧
    (verifyPaymentV2 envNoCourse oidA pidA sigA).1.body.slug_received =
      some (JSValue.str "intro-ts") := by
  decide

/-- C6 (amended): every non-200 verify-payment response has success false
and a message; every branch except course-not-found carries no
slug_received field; only the course-not-found 500 response echoes the
received slug, and the version-1 handler never echoes one. -/
theorem verify_error_bodies (env : VerifyEnv) (oid pid sig : JSValue) :
    ((verifyPaymentV2 env oid pid sig).1.status ≠ 200 →
      (verifyPaymentV2 env oid pid sig).1.body.success = false ∧
      (verifyPaymentV2 env oid pid sig).1.body.message ≠ none)
    ∧ ((verifyPaymentV2 env oid pid sig).1.body.slug_received ≠ none →
      (verifyPaymentV2 env oid pid sig).1.status = 500 ∧
      (verifyPaymentV2 env oid pid sig).1.body.message = some "Course not found")
    ∧ (verifyPaymentV1 env oid pid sig).1.body.slug_received = none := by
  rcases verify2_resp_cases env oid pid sig with h | h | h | h | ⟨slug, h⟩ | h | h <;>
  rcases verify1_resp_cases env oid pid sig with h1 | h1 | h1 <;>
  simp [h, h1]

/-- C6 witness: the amended statement applied to the concrete
course-not-found run. -/
theorem verify_error_bodies_witness :
    (verifyPaymentV2 envNoCourse oidA pidA sigA).1.status = 500 ∧
    (verifyPaymentV2 envNoCourse oidA pidA sigA).1.body.message =
      some "Course not found" :=
  (verify_error_bodies envNoCourse oidA pidA sigA).2.1 (by decide)

/-- C7: when the fields are present, the signature matches, and the
fetched order metadata lacks course_slug or user_id, the version-2
handler returns the 500 missing-metadata failure and its only upstream
effect is the order fetch: no course lookup and no grant insert. -/
theorem missing_metadata_terminal (env : VerifyEnv) (oid pid sig : JSValue)
    (order : FetchedOrder)
    (h1 : truthy oid = true) (h2 : truthy pid = true) (h3 : truthy sig = true)
    (hs : strictEqStr (env.hmac env.key_secret (sigPayload oid pid)) sig = true)
    (hf : env.fetchOrder oid = .ok order)
    (hm : noteVal order "course_slug" = .undef ∨ noteVal order "user_id" = .undef) :
    verifyPaymentV2 env oid pid sig =
      (⟨500, ⟨false, some "Missing metadata", none⟩⟩, [.fetchOrder oid]) := by
  have h0 : (!(truthy oid) || !(truthy pid) || !(truthy sig)) = false := by
    simp [h1, h2, h3]
  rcases hm with hm | hm <;> simp [verifyPaymentV2, h0, hs, hf, hm, truthy_undef]

/-- C7 witness: a concrete verified request whose order notes lack
user_id ends with the 500 missing-metadata response after only the
fetch. -/
theorem missing_metadata_terminal_witness :
    verifyPaymentV2 envNoMeta oidA pidA sigA =
      (⟨500, ⟨false, some "Missing metadata", none⟩⟩, [.fetchOrder oidA]) :=
  missing_metadata_terminal envNoMeta oidA pidA sigA
    ⟨some [("course_slug", JSValue.str "intro-ts")]⟩
    (by decide) (by decide) (by decide) (by decide) rfl (Or.inr (by decide))

/-- C8: the two concatenated server versions are not behaviorally
equivalent: version 1 answers a validly signed request with the success
response and no upstream effect, version 2 performs the order fetch, the
course lookup and the grant insert before answering success, and on a
concrete common input the two handlers produce different results. -/
theorem versions_not_equivalent :
    (∀ (env : VerifyEnv) (oid pid sig : JSValue),
      truthy oid = true → truthy pid = true → truthy sig = true →
      strictEqStr (env.hmac env.key_secret (sigPayload oid pid)) sig = true →
      verifyPaymentV1 env oid pid sig = (⟨200, ⟨true, none, none⟩⟩, []))
    ∧ (∀ (env : VerifyEnv) (oid pid sig : JSValue) (order : FetchedOrder) (course : Course),
      truthy oid = true → truthy pid = true → truthy sig = true →
      strictEqStr (env.hmac env.key_secret (sigPayload oid pid)) sig = true →
      env.fetchOrder oid = .ok order →
      truthy (noteVal order "course_slug") = true →
      truthy (noteVal order "user_id") = true →
      env.courseLookup (noteVal order "course_slug") = some course →
      env.insertGrant (noteVal order "user_id") course.id = none →
      verifyPaymentV2 env oid pid sig =
        (⟨200, ⟨true, none, none⟩⟩,
         [.fetchOrder oid, .courseLookup (noteVal order "course_slug"),
          .insertGrant (noteVal order "user_id") course.id]))
    ∧ verifyPaymentV1 envOK oidA pidA sigA ≠ verifyPaymentV2 envOK oidA pidA sigA := by
  refine ⟨?_, ?_, ?_⟩
  · intro env oid pid sig h1 h2 h3 hs
    have h0 : (!(truthy oid) || !(truthy pid) || !(truthy sig)) = false := by
      simp [h1, h2, h3]
    simp [verifyPaymentV1, h0, hs]
  · intro env oid pid sig order course h1 h2 h3 hs hf hcs huid hc hi
    have h0 : (!(truthy oid) || !(truthy pid) || !(truthy sig)) = false := by
      simp [h1, h2, h3]
    have hm : (!(truthy (noteVal order "course_slug")) ||
        !(truthy (noteVal order "user_id"))) = false := by
      simp [hcs, huid]
    simp [verifyPaymentV2, h0, hs, hf, hm, hc, hi, grantStepWith]
  · decide

/-- C8 witness: version 1 on the concrete validly signed request answers
success with no effects. -/
theorem versions_not_equivalent_witness :
    verifyPaymentV1 envOK oidA pidA sigA = (⟨200, ⟨true, none, none⟩⟩, []) :=
  versions_not_equivalent.1 envOK oidA pidA sigA
    (by decide) (by decide) (by decide) (by decide)

/-- C9: whatever the caller puts in the notes object, the order returned
by a successful version-2 create-order carries the top-level course_slug
and user_id arguments at those metadata keys, because the explicit fields
are written after the notes spread. -/
theorem notes_cannot_override_metadata (env : CreateEnv) (req : CreateReq) (o : Order)
    (h : (createOrderV2 env req).1 = ⟨200, .order o⟩) :
    getKey o.notes "course_slug" = req.course_slug ∧
    getKey o.notes "user_id" = req.user_id := by
  by_cases h0 : (!(truthy req.amount) || !(truthy req.course_slug) ||
      !(truthy req.user_id)) = true
  · have hrej : createOrderV2 env req =
        (⟨400, .err "Amount, course_slug and user_id are required"⟩, []) := by
      simp [createOrderV2, h0]
    rw [hrej] at h
    simp at h
  · rw [Bool.not_eq_true] at h0
    cases hc : env.create (createOptionsV2 env req) with
    | error e => simp [createOrderV2, h0, hc] at h
    | ok oid =>
      have h' : (⟨200, .order ⟨oid, (createOptionsV2 env req).notes⟩⟩ : CreateResp) =
          ⟨200, .order o⟩ := by
        rw [← h]
        simp [createOrderV2, h0, hc]
      have hnotes : (createOptionsV2 env req).notes = o.notes :=
        congrArg Order.notes (CreateBody.order.inj (congrArg CreateResp.body h'))
      rw [← hnotes]
      constructor
      · show getKey (setKey (setKey req.notes "course_slug" req.course_slug)
          "user_id" req.user_id) "course_slug" = req.course_slug
        rw [getKey_setKey_other _ _ _ _ (by decide), getKey_setKey_same]
      · show getKey (setKey (setKey req.notes "course_slug" req.course_slug)
          "user_id" req.user_id) "user_id" = req.user_id
        rw [getKey_setKey_same]

/-- C9 witness: with caller notes that try to set both keys, the created
order still carries the top-level arguments. -/
theorem notes_cannot_override_metadata_witness :
    getKey orderB.notes "course_slug" = JSValue.str "intro-ts" ∧
    getKey orderB.notes "user_id" = JSValue.str "u123" :=
  notes_cannot_override_metadata cenvOK reqB orderB (by decide)

/-- C10: field presence is decided by JavaScript truthiness: a zero
amount or an empty-string field makes create-order answer the same 400
rejection as an absent field (and the response is literally the one for
the absent field), and an empty-string field makes verify-payment answer
the missing-details 400 with no effects. -/
theorem truthiness_field_presence :
    (∀ (env : CreateEnv) (req : CreateReq),
      req.amount = .num 0 ∨ req.amount = .str "" ∨ req.course_slug = .str "" ∨
        req.user_id = .str "" →
      createOrderV2 env req =
        (⟨400, .err "Amount, course_slug and user_id are required"⟩, []))
    ∧ (∀ (env : CreateEnv) (req : CreateReq),
      req.amount = .num 0 ∨ req.amount = .str "" →
      createOrderV2 env req = createOrderV2 env { req with amount := .undef })
    ∧ (∀ (env : VerifyEnv) (oid pid sig : JSValue),
      oid = .str "" ∨ pid = .str "" ∨ sig = .str "" →
      verifyPaymentV2 env oid pid sig =
        (⟨400, ⟨false, some "Missing payment details", none⟩⟩, [])) := by
  refine ⟨?_, ?_, ?_⟩
  · intro env req h
    rcases h with h | h | h | h <;> simp [createOrderV2, h, truthy]
  · intro env req h
    rcases h with h | h <;> simp [createOrderV2, h, truthy]
  · intro env oid pid sig h
    rcases h with h | h | h <;> simp [verifyPaymentV2, h, truthy]

/-- C10 witness: the concrete request with amount zero is rejected
exactly like a request with no amount. -/
theorem truthiness_field_presence_witness :
    createOrderV2 cenvOK reqZero =
      (⟨400, .err "Amount, course_slug and user_id are required"⟩, []) :=
  truthiness_field_presence.1 cenvOK reqZero (Or.inl rfl)

end Interprex
